import Mathlib

/-!
Verification of the orchestration logic of `train.py` (keras-yolo3).

The script is thin glue around external collaborators (annotation parser,
model factory, batch generator, training runtime).  We embed the pieces of
`train.py` that carry branching logic:

* `create_training_instances` (lines 26-64): split building and label
  reconciliation.  The results of the external `parse_voc_annotation`
  calls and of the in-place `np.random.shuffle` are passed in as
  parameters; theorems that need it carry a permutation hypothesis for
  the shuffled list.
* `create_callbacks` (lines 66-84): the callback list, embedded as data.
* the warmup-batch computation of `_main_` (lines 138-142).
* the unconditional step sequence of `_main_` after dataset preparation
  (lines 95-193).
* the mAP report expression (line 193), with Python's `ZeroDivisionError`
  modelled as `Option.none`.
* the `argparse` declaration (lines 18-24).

Machine floats in the source appear only as the literals `0.8`, `0.001`
and in average precisions; they are modelled exactly:
`int(0.8*n)` as `4*n/5` in `Nat` (equal for every list length arising
from a parsed dataset) and `0.001` as the rational `1/1000`.
-/

namespace TrainPy

/-- Embeds `create_training_instances` (train.py lines 26-64).

Inputs stand for the data the Python function obtains from its
collaborators:
* `validExists` is `os.path.exists(valid_annot_folder)` (line 38);
* `trainParsedInts` is `train_ints` as returned by
  `parse_voc_annotation` on the training folder (line 35);
* `trainLabels` is the key set of the `train_labels` dict returned there
  (dict keys are distinct, hence a `Finset`);
* `validParsedInts` is the `valid_ints` parsed from the validation
  folder, used only in the branch where that folder exists (line 40);
* `shuffledTrainInts` is the content of `train_ints` after the in-place
  `np.random.shuffle` (line 43), used only in the other branch;
* `labels` is the configured label list.

Line 42 computes `int(0.8*len(train_ints))` before the shuffle; in exact
arithmetic this is `4*n/5` with `Nat` division.  Lines 49-63 compare the
configured labels with the seen ones: `overlap_labels` is
`set(labels) & set(train_labels.keys())`, and the function returns the
sentinel `None, None, None` (here `none`) when `len(overlap_labels) <
len(labels)`; with an empty configured list it instead resolves the
labels to `sorted(train_labels.keys())`. -/
def create_training_instances {α : Type} (validExists : Bool)
    (trainParsedInts validParsedInts shuffledTrainInts : List α)
    (trainLabels : Finset String) (labels : List String) :
    Option (List α × List α × List String) :=
  let split := 4 * trainParsedInts.length / 5
  let train_ints := if validExists then trainParsedInts else shuffledTrainInts.take split
  let valid_ints := if validExists then validParsedInts else shuffledTrainInts.drop split
  if 0 < labels.length then
    let overlap_labels := labels.toFinset ∩ trainLabels
    if overlap_labels.card < labels.length then
      none
    else
      some (train_ints, valid_ints, labels)
  else
    some (train_ints, valid_ints, trainLabels.sort (· ≤ ·))

/-- The steps `_main_` performs, in program order (train.py lines 86-193). -/
inductive MainStep where
  | readConfig
  | prepareDataset
  | buildTrainGen
  | buildValidGen
  | computeWarmup
  | buildModels
  | loadWeights
  | compileModel
  | fitLoop
  | saveInferModel
  | evalMAP
deriving DecidableEq, Repr

/-- Embeds the control flow of `_main_` after the call to
`create_training_instances` (train.py lines 95-193): the returned triple
is bound at line 95 and the code proceeds straight to the two
`BatchGenerator` constructions (lines 107 and 121) and the rest of the
pipeline.  There is no conditional between line 102 and line 107, so the
step sequence does not depend on the triple — the argument is received
(mirroring the data flow) but never tested. -/
def mainStepsAfterPrep {α : Type}
    (_prepResult : Option (List α × List α × List String)) : List MainStep :=
  [MainStep.readConfig, MainStep.prepareDataset,
   MainStep.buildTrainGen, MainStep.buildValidGen,
   MainStep.computeWarmup, MainStep.buildModels,
   MainStep.loadWeights, MainStep.compileModel,
   MainStep.fitLoop, MainStep.saveInferModel, MainStep.evalMAP]

/-- Embeds the warmup-batch computation of `_main_` (train.py lines
138-142): zero when `os.path.exists(config['train']['saved_weights_name'])`,
otherwise `warmup_epochs * (train_times*len(train_generator) +
valid_times*len(valid_generator))`.  The generator lengths come from the
external `BatchGenerator` and are passed in. -/
def warmupBatches (savedWeightsExist : Bool)
    (warmup_epochs train_times valid_times lenTrainGen lenValidGen : Nat) : Nat :=
  if savedWeightsExist then 0
  else warmup_epochs * (train_times * lenTrainGen + valid_times * lenValidGen)

end TrainPy

namespace TrainPy

/-- C1: a configured label missing from the seen labels forces the
sentinel result.  Helper fact: the overlap is then strictly smaller than
the configured list. -/
theorem overlap_card_lt {labels : List String} {trainLabels : Finset String}
    {l : String} (hl : l ∈ labels) (hnot : l ∉ trainLabels) :
    (labels.toFinset ∩ trainLabels).card < labels.length := by
  have hss : labels.toFinset ∩ trainLabels ⊂ labels.toFinset := by
    refine Finset.ssubset_iff_of_subset Finset.inter_subset_left |>.mpr ?_
    exact ⟨l, List.mem_toFinset.mpr hl, fun hmem => hnot (Finset.mem_inter.mp hmem).2⟩
  exact lt_of_lt_of_le (Finset.card_lt_card hss) (List.toFinset_card_le labels)

end TrainPy

/-- C1: for every label list containing at least one label absent from the
labels observed in the training annotations, `create_training_instances`
returns the sentinel absence value (`none`, i.e. Python's
`None, None, None`) covering all three outputs. -/
theorem c1_missing_label_returns_none {α : Type} (validExists : Bool)
    (trainParsedInts validParsedInts shuffledTrainInts : List α)
    (trainLabels : Finset String) (labels : List String)
    (l : String) (hl : l ∈ labels) (hnot : l ∉ trainLabels) :
    TrainPy.create_training_instances validExists trainParsedInts validParsedInts
      shuffledTrainInts trainLabels labels = none := by
  have hpos : 0 < labels.length := List.length_pos.mpr (List.ne_nil_of_mem hl)
  have hlt := TrainPy.overlap_card_lt hl hnot
  simp only [TrainPy.create_training_instances, if_pos hpos, if_pos hlt]

/-- Witness for C1 at a concrete input: requesting `"unicorn"` when only
`"cat"` was seen yields the sentinel. -/
theorem c1_missing_label_returns_none_witness :
    "unicorn" ∈ ["unicorn"] ∧ "unicorn" ∉ ({"cat"} : Finset String) ∧
      TrainPy.create_training_instances true ([0] : List Nat) [1] [0]
        {"cat"} ["unicorn"] = none :=
  ⟨by decide, by decide,
    c1_missing_label_returns_none true [0] [1] [0] {"cat"} ["unicorn"]
      "unicorn" (by decide) (by decide)⟩

/-- C3: with an empty configured label list, `create_training_instances`
succeeds and resolves the labels to the sorted distinct labels observed in
the training annotations (`sorted(train_labels.keys())`). -/
theorem c3_empty_labels_resolve_sorted {α : Type} (validExists : Bool)
    (trainParsedInts validParsedInts shuffledTrainInts : List α)
    (trainLabels : Finset String) :
    ∃ tr va, TrainPy.create_training_instances validExists trainParsedInts
        validParsedInts shuffledTrainInts trainLabels [] =
      some (tr, va, trainLabels.sort (· ≤ ·)) := by
  refine ⟨if validExists then trainParsedInts
      else shuffledTrainInts.take (4 * trainParsedInts.length / 5),
    if validExists then validParsedInts
      else shuffledTrainInts.drop (4 * trainParsedInts.length / 5), ?_⟩
  simp [TrainPy.create_training_instances]

/-- C4 counterexample: the claim fails for a label list with a repeated
entry.  With seen labels exactly -- cat -- and configured labels
repeating cat twice, every configured element is present, yet line 57
compares `len(overlap_labels)` (a set, so 1) with `len(labels)` (a list,
so 2) and returns the sentinel instead of the list itself. -/
theorem c4_all_present_counterexample :
    TrainPy.create_training_instances true ([0] : List Nat) [1] [0]
      {"cat"} ["cat", "cat"] = none := by
  decide

/-- C4 amended: for every non-empty duplicate-free label list all of whose
elements are among the observed training labels,
`create_training_instances` succeeds and returns the configured list
itself as the resolved label set. -/
theorem c4_nodup_present_labels_returned {α : Type} (validExists : Bool)
    (trainParsedInts validParsedInts shuffledTrainInts : List α)
    (trainLabels : Finset String) (labels : List String)
    (hnd : labels.Nodup) (hne : labels ≠ [])
    (hsub : ∀ l ∈ labels, l ∈ trainLabels) :
    ∃ tr va, TrainPy.create_training_instances validExists trainParsedInts
        validParsedInts shuffledTrainInts trainLabels labels =
      some (tr, va, labels) := by
  have hpos : 0 < labels.length := List.length_pos.mpr hne
  have hinter : labels.toFinset ∩ trainLabels = labels.toFinset :=
    Finset.inter_eq_left.mpr fun x hx => hsub x (List.mem_toFinset.mp hx)
  have hcard : (labels.toFinset ∩ trainLabels).card = labels.length := by
    rw [hinter, List.toFinset_card_of_nodup hnd]
  refine ⟨if validExists then trainParsedInts
      else shuffledTrainInts.take (4 * trainParsedInts.length / 5),
    if validExists then validParsedInts
      else shuffledTrainInts.drop (4 * trainParsedInts.length / 5), ?_⟩
  simp [TrainPy.create_training_instances, hpos, hcard]

/-- Witness for C4 amended at a concrete input: configured labels
cat, dog with both seen. -/
theorem c4_nodup_present_labels_returned_witness :
    (["cat", "dog"] : List String).Nodup ∧ (["cat", "dog"] : List String) ≠ [] ∧
      (∀ l ∈ (["cat", "dog"] : List String), l ∈ ({"cat", "dog"} : Finset String)) ∧
      ∃ tr va, TrainPy.create_training_instances true ([0] : List Nat) [1] [0]
          {"cat", "dog"} ["cat", "dog"] = some (tr, va, ["cat", "dog"]) :=
  ⟨by decide, by decide, by decide,
    c4_nodup_present_labels_returned true [0] [1] [0] {"cat", "dog"}
      ["cat", "dog"] (by decide) (by decide) (by decide)⟩

/-- Helper for C5 and C10: whenever `create_training_instances` succeeds,
its instance outputs are the ones selected by the validation-folder
branch, whatever the label branch did. -/
theorem create_training_instances_some {α : Type} {validExists : Bool}
    {trainParsedInts validParsedInts shuffledTrainInts : List α}
    {trainLabels : Finset String} {labels : List String}
    {tr va : List α} {ls : List String}
    (h : TrainPy.create_training_instances validExists trainParsedInts
      validParsedInts shuffledTrainInts trainLabels labels = some (tr, va, ls)) :
    tr = (if validExists then trainParsedInts
        else shuffledTrainInts.take (4 * trainParsedInts.length / 5)) ∧
      va = (if validExists then validParsedInts
        else shuffledTrainInts.drop (4 * trainParsedInts.length / 5)) := by
  unfold TrainPy.create_training_instances at h
  by_cases hp : 0 < labels.length
  · rw [if_pos hp] at h
    by_cases hlt : (labels.toFinset ∩ trainLabels).card < labels.length
    · rw [if_pos hlt] at h
      exact absurd h (by simp)
    · rw [if_neg hlt] at h
      injection h with h2
      exact ⟨congrArg (fun t => t.1) h2.symm, congrArg (fun t => t.2.1) h2.symm⟩
  · rw [if_neg hp] at h
    injection h with h2
    exact ⟨congrArg (fun t => t.1) h2.symm, congrArg (fun t => t.2.1) h2.symm⟩

/-- C10: when the validation annotation folder exists,
`create_training_instances` returns the training instance list exactly as
the annotation parser produced it, in the same order, for every value of
the shuffled list — the shuffle only matters in the splitting branch. -/
theorem c10_valid_exists_preserves_order {α : Type}
    (trainParsedInts validParsedInts shuffledTrainInts : List α)
    (trainLabels : Finset String) (labels : List String)
    (tr va : List α) (ls : List String)
    (h : TrainPy.create_training_instances true trainParsedInts validParsedInts
      shuffledTrainInts trainLabels labels = some (tr, va, ls)) :
    tr = trainParsedInts := by
  have := create_training_instances_some h
  simpa using this.1

/-- Witness for C10 at a concrete input: the validation folder exists and
an (arbitrary) shuffled list differs from the parsed one, yet the train
output keeps the parsed order. -/
theorem c10_valid_exists_preserves_order_witness :
    TrainPy.create_training_instances true ([1, 2] : List Nat) [3] [9, 9]
        ∅ [] = some ([1, 2], [3], []) ∧ ([1, 2] : List Nat) = [1, 2] :=
  ⟨by simp [TrainPy.create_training_instances, Finset.sort_empty],
    c10_valid_exists_preserves_order [1, 2] [3] [9, 9] ∅ [] [1, 2] [3] []
      (by simp [TrainPy.create_training_instances, Finset.sort_empty])⟩

/-- C5 counterexample: for a training instance list with a repeated
entry the two outputs of the 80/20 split are not disjoint.  With
`train_ints = [0, 0]` (and the shuffle leaving it unchanged) the split
index is `int(0.8*2) = 1`, giving train `[0]` and validation `[0]`,
which share the element `0`. -/
theorem c5_split_counterexample :
    TrainPy.create_training_instances false ([0, 0] : List Nat) [] [0, 0]
        ∅ [] = some ([0], [0], []) ∧ ¬ ([0] : List Nat).Disjoint [0] :=
  ⟨by simp [TrainPy.create_training_instances, Finset.sort_empty],
   fun h => h (List.mem_singleton.mpr rfl) (List.mem_singleton.mpr rfl)⟩

/-- C5 amended: when the validation annotation folder does not exist and
`create_training_instances` succeeds, it splits the shuffled training
list at index `int(0.8*n) = 4*n/5`: the train output has `4*n/5`
elements, the validation output the remaining `n - 4*n/5`, together they
are a permutation of the original instances (each occurrence lands on
exactly one side), and when the original instances are pairwise distinct
the two outputs are disjoint. -/
theorem c5_split_lengths_cover_disjoint {α : Type}
    (trainParsedInts validParsedInts shuffledTrainInts : List α)
    (trainLabels : Finset String) (labels : List String)
    (tr va : List α) (ls : List String)
    (hperm : shuffledTrainInts.Perm trainParsedInts)
    (h : TrainPy.create_training_instances false trainParsedInts validParsedInts
      shuffledTrainInts trainLabels labels = some (tr, va, ls)) :
    tr.length = 4 * trainParsedInts.length / 5 ∧
      va.length = trainParsedInts.length - 4 * trainParsedInts.length / 5 ∧
      (tr ++ va).Perm trainParsedInts ∧
      (trainParsedInts.Nodup → tr.Disjoint va) := by
  obtain ⟨htr, hva⟩ := create_training_instances_some h
  simp only [if_neg (Bool.false_ne_true)] at htr hva
  have hlen : shuffledTrainInts.length = trainParsedInts.length := hperm.length_eq
  have hk : 4 * trainParsedInts.length / 5 ≤ trainParsedInts.length := by omega
  subst htr hva
  refine ⟨?_, ?_, ?_, ?_⟩
  · rw [List.length_take, hlen]
    exact min_eq_left hk
  · rw [List.length_drop, hlen]
  · rw [List.take_append_drop]
    exact hperm
  · intro hnd
    exact List.disjoint_take_drop (hperm.nodup_iff.mpr hnd) le_rfl

/-- Witness for C5 amended at a concrete input: five distinct instances
split into four train and one validation instance. -/
theorem c5_split_lengths_cover_disjoint_witness :
    ([0, 1, 2, 3, 4] : List Nat).Perm [0, 1, 2, 3, 4] ∧
      TrainPy.create_training_instances false ([0, 1, 2, 3, 4] : List Nat) []
        [0, 1, 2, 3, 4] ∅ [] = some ([0, 1, 2, 3], [4], []) ∧
      (([0, 1, 2, 3] : List Nat).length = 4 * ([0, 1, 2, 3, 4] : List Nat).length / 5 ∧
        ([4] : List Nat).length =
          ([0, 1, 2, 3, 4] : List Nat).length - 4 * ([0, 1, 2, 3, 4] : List Nat).length / 5 ∧
        (([0, 1, 2, 3] : List Nat) ++ [4]).Perm [0, 1, 2, 3, 4] ∧
        (([0, 1, 2, 3, 4] : List Nat).Nodup → ([0, 1, 2, 3] : List Nat).Disjoint [4])) :=
  ⟨List.Perm.refl _,
   by simp [TrainPy.create_training_instances, Finset.sort_empty],
   c5_split_lengths_cover_disjoint [0, 1, 2, 3, 4] [] [0, 1, 2, 3, 4] ∅ []
     [0, 1, 2, 3] [4] [] (List.Perm.refl _)
     (by simp [TrainPy.create_training_instances, Finset.sort_empty])⟩

/-- C2: evaluation at a failing input.  With configured label `"unicorn"`
and seen labels exactly `"cat"`, dataset preparation signals failure
(`create_training_instances` returns the sentinel), yet the step sequence
of `_main_` still contains the construction of both `BatchGenerator`s and
of the models: `_main_` never tests the triple returned at line 95, so
generator construction (lines 107, 121) is reached unconditionally,
contradicting the claim that the run aborts before any model or
generator construction. -/
theorem c2_prep_failure_still_builds_generators :
    TrainPy.create_training_instances true ([0] : List Nat) [1] [0]
        {"cat"} ["unicorn"] = none ∧
      TrainPy.MainStep.buildTrainGen ∈ TrainPy.mainStepsAfterPrep
        (TrainPy.create_training_instances true ([0] : List Nat) [1] [0]
          {"cat"} ["unicorn"]) ∧
      TrainPy.MainStep.buildValidGen ∈ TrainPy.mainStepsAfterPrep
        (TrainPy.create_training_instances true ([0] : List Nat) [1] [0]
          {"cat"} ["unicorn"]) ∧
      TrainPy.MainStep.buildModels ∈ TrainPy.mainStepsAfterPrep
        (TrainPy.create_training_instances true ([0] : List Nat) [1] [0]
          {"cat"} ["unicorn"]) :=
  ⟨by decide, by decide, by decide, by decide⟩

namespace TrainPy

/-- A Keras callback as constructed by `create_callbacks`, embedded as
data: the constructor arguments that train.py passes (lines 67-82).
`min_delta` carries the literal `0.001` as the rational `1/1000`. -/
inductive Callback where
  | earlyStopping (monitor : String) (min_delta : ℚ) (patience : Nat)
      (mode : String) (verbose : Nat)
  | modelCheckpoint (filepath monitor : String) (verbose : Nat)
      (save_best_only : Bool) (mode : String) (period : Nat)
deriving DecidableEq, Repr

/-- Embeds `create_callbacks` (train.py lines 66-84): an `EarlyStopping`
on `val_loss` with `min_delta=0.001`, `patience=3`, `mode='min'`,
`verbose=1`, followed by a `ModelCheckpoint` to the configured weights
path on `val_loss` with `save_best_only=True`, `mode='min'`,
`period=1`. -/
def create_callbacks (saved_weights_name : String) : List Callback :=
  [Callback.earlyStopping "val_loss" (1 / 1000) 3 "min" 1,
   Callback.modelCheckpoint saved_weights_name "val_loss" 1 true "min" 1]

/-- The parsed argument namespace of train.py: `args.conf`, absent
(`None`) when the flag was not given. -/
structure Args where
  conf : Option String
deriving DecidableEq, Repr

/-- Embeds the `argparse` parser declared at train.py lines 18-24 under
standard `argparse` semantics for that declaration: a single optional
flag `-c`/`--conf` taking one value.  `add_argument` is called without
`required=True`, so an invocation that omits the flag parses
successfully with `conf = None`; a flag without its value or an
unrecognized argument is a parse error.  (The attached spellings
`--conf=value` / `-cvalue`, also accepted by `argparse`, are not needed
by any claim and are not modelled.)  The accumulator carries the value
seen so far, `None` at entry like the argparse default. -/
def parseArgsFrom : Option String → List String → Except String Args
  | acc, [] => Except.ok ⟨acc⟩
  | _acc, arg :: rest =>
    if arg = "-c" ∨ arg = "--conf" then
      match rest with
      | [] => Except.error "argument -c/--conf: expected one argument"
      | v :: rest2 => parseArgsFrom (some v) rest2
    else
      Except.error "unrecognized arguments"

/-- Parsing an argument vector, starting from the argparse default
`conf = None`. -/
def parseArgs (argv : List String) : Except String Args :=
  parseArgsFrom none argv

/-- Embeds the mAP report expression of `_main_` (train.py line 193):
`sum(average_precisions.values()) / len(average_precisions)` over the
mapping returned by `evaluate`; Python raises `ZeroDivisionError` when
the mapping is empty, modelled as `none`.  The mapping is passed as an
association list of label index and average precision. -/
def mapReport (average_precisions : List (Nat × ℚ)) : Option ℚ :=
  if average_precisions.length = 0 then none
  else some ((average_precisions.map Prod.snd).sum / (average_precisions.length : ℚ))

end TrainPy

/-- C6: the warmup batch count of `_main_` is exactly zero whenever a file
exists at the configured saved-weights path, and otherwise equals
`warmup_epochs * (train_times * len(train_generator) + valid_times *
len(valid_generator))`. -/
theorem c6_warmup_batches_value
    (warmup_epochs train_times valid_times lenTrainGen lenValidGen : Nat) :
    TrainPy.warmupBatches true warmup_epochs train_times valid_times
        lenTrainGen lenValidGen = 0 ∧
      TrainPy.warmupBatches false warmup_epochs train_times valid_times
          lenTrainGen lenValidGen =
        warmup_epochs * (train_times * lenTrainGen + valid_times * lenValidGen) :=
  ⟨rfl, rfl⟩

/-- C7 counterexample: an invocation that omits the configuration-file
flag does NOT fail argument parsing: `add_argument` is called without
`required=True`, so parsing the empty argument vector succeeds and
yields `conf = None`. -/
theorem c7_cli_counterexample :
    TrainPy.parseArgs [] = Except.ok ⟨none⟩ :=
  rfl

/-- C7 amended: the command-line interface accepts exactly one flag,
`-c`/`--conf`, taking the path to a JSON configuration file; the flag is
optional at parse time, so omitting it parses successfully with
`conf = None` (the program only fails later when it opens the missing
path), while giving the flag records the path and giving it without a
value fails. -/
theorem c7_cli_optional_flag :
    TrainPy.parseArgs [] = Except.ok ⟨none⟩ ∧
      TrainPy.parseArgs ["-c", "config.json"] = Except.ok ⟨some "config.json"⟩ ∧
      TrainPy.parseArgs ["--conf", "config.json"] = Except.ok ⟨some "config.json"⟩ ∧
      (∃ e, TrainPy.parseArgs ["-c"] = Except.error e) :=
  ⟨rfl, rfl, rfl, ⟨_, rfl⟩⟩

/-- C8: `create_callbacks` returns exactly two callbacks: an
early-stopping policy monitoring `val_loss` with minimum improvement
delta `0.001` and patience `3`, and a checkpoint policy saving to the
configured path only on improvement (`save_best_only = true`,
mode `min`, every epoch, i.e. `period = 1`). -/
theorem c8_callbacks_pair (saved_weights_name : String) :
    (TrainPy.create_callbacks saved_weights_name).length = 2 ∧
      TrainPy.create_callbacks saved_weights_name =
        [TrainPy.Callback.earlyStopping "val_loss" (1 / 1000) 3 "min" 1,
         TrainPy.Callback.modelCheckpoint saved_weights_name "val_loss" 1
           true "min" 1] :=
  ⟨rfl, rfl⟩

/-- C9: the final mAP report divides the sum of the per-class average
precisions by the number of entries of the mapping; it is well-defined
(computes that quotient) exactly when the mapping is non-empty, and on
the empty mapping the computation fails (Python's `ZeroDivisionError`,
modelled as `none`). -/
theorem c9_map_mean_defined_iff_nonempty
    (average_precisions : List (Nat × ℚ)) :
    (average_precisions ≠ [] →
        TrainPy.mapReport average_precisions =
          some ((average_precisions.map Prod.snd).sum /
            (average_precisions.length : ℚ))) ∧
      TrainPy.mapReport [] = none :=
  ⟨fun h => by
      rw [TrainPy.mapReport, if_neg (by simpa [List.length_eq_zero] using h)],
    rfl⟩

/-- Witness for C9 at a concrete input: a single class with average
precision one half gives mAP one half. -/
theorem c9_map_mean_defined_iff_nonempty_witness :
    ([(0, (1 : ℚ) / 2)] : List (Nat × ℚ)) ≠ [] ∧
      TrainPy.mapReport [(0, (1 : ℚ) / 2)] =
        some ((([(0, (1 : ℚ) / 2)] : List (Nat × ℚ)).map Prod.snd).sum /
          (([(0, (1 : ℚ) / 2)] : List (Nat × ℚ)).length : ℚ)) :=
  ⟨by simp,
    (c9_map_mean_defined_iff_nonempty [(0, (1 : ℚ) / 2)]).1 (by simp)⟩
